import Mathlib

/-!
Verification development for `src/ptan/samples/dqn_tweaks_atari.py`, the
experience-management core of an off-policy DQN trainer.  The Python code is
shallowly embedded: observations are abstracted to `Nat` identifiers, rewards
and action values are `ℚ`, and the two estimators (`model`, `target_model`)
are deterministic functions from a state identifier to a vector of action
values.  The module-level running sums mutated by `batch_to_train` are made
explicit as a `Globals` record threaded through the function.
-/

namespace DQN

/-- One transition record, mirroring ptan's `Experience` tuple as consumed by
`batch_to_train`: `state` (observation at time t, abstracted to an id),
`action` (discrete index), `reward` (scalar), `done` (episode ended). -/
structure Experience where
  state : Nat
  action : Nat
  reward : ℚ
  done : Bool
deriving DecidableEq

/-- Default experience used for the (never-reached) empty-chain cases of
`headD`/`getLastD`; batches sampled from the replay buffer always hold
non-empty chains. -/
def dExp : Experience := ⟨0, 0, 0, false⟩

/-- The run configuration and estimator views that `batch_to_train` closes
over: `GAMMA`, the `use_target_dqn` / `use_double_dqn` flags, the online
network `model` and the target network `target_net.target_model` (both as
pure forward functions on a state id). -/
structure Config where
  gamma : ℚ
  useTargetDqn : Bool
  useDoubleDqn : Bool
  model : Nat → List ℚ
  targetModel : Nat → List ℚ

/-- Lines 114-117 of the source: `target_model = target_net.target_model` when
`use_target_dqn` else the online `model` itself. -/
def targetModelOf (cfg : Config) : Nat → List ℚ :=
  if cfg.useTargetDqn then cfg.targetModel else cfg.model

/-- Maximum of a list of action values, as torch `tensor.max(1)[0]` computes it
for one row (rows are non-empty in every run: `n_actions ≥ 1`). -/
def listMax : List ℚ → ℚ
  | [] => 0
  | x :: xs => xs.foldl max x

/-- Helper for `argmaxIdx`: scan the tail keeping the index of the first
maximal element seen so far. -/
def argmaxGo : Nat → Nat → ℚ → List ℚ → Nat
  | _, best, _, [] => best
  | i, best, bv, x :: xs =>
    if bv < x then argmaxGo (i + 1) i x xs else argmaxGo (i + 1) best bv xs

/-- Index of the (first) maximal element of a row, as torch
`tensor.max(1)[1]` computes it. -/
def argmaxIdx : List ℚ → Nat
  | [] => 0
  | x :: xs => argmaxGo 1 0 x xs

/-- Bootstrap value for one chain's last state, mirroring lines 151-162 of the
source: double mode (both flags) takes the target net's value at the online
argmax action; target-only takes the target net's max; otherwise the online
net's own max. -/
def bootstrapValue (cfg : Config) (s : Nat) : ℚ :=
  if cfg.useTargetDqn && cfg.useDoubleDqn then
    (targetModelOf cfg s).getD (argmaxIdx (cfg.model s)) 0
  else if cfg.useTargetDqn then
    listMax (targetModelOf cfg s)
  else
    listMax (cfg.model s)

/-- Lines 169-170 of the source: `for exp in reversed(exps[:-1]): total =
exp.reward + GAMMA * total`, i.e. a right fold of `r + γ·acc` over the given
reward list, seeded with the bootstrap total. -/
def nstepBackup (gamma : ℚ) (rewards : List ℚ) (seed : ℚ) : ℚ :=
  rewards.foldr (fun r acc => r + gamma * acc) seed

/-- Lines 165-168 of the source: the seed of the backward walk is 0 when the
chain's last transition has `done = true`, else the bootstrap value of the
chain's last state. -/
def chainSeed (cfg : Config) (exps : List Experience) : ℚ :=
  if (exps.getLastD dExp).done then 0 else bootstrapValue cfg (exps.getLastD dExp).state

/-- The backed-up `total_reward` written into the regression target for one
chain: discounted accumulation over the rewards of `exps[:-1]` (the last
transition only supplies the bootstrap state and done flag), seeded with
`chainSeed`. -/
def chainTarget (cfg : Config) (exps : List Experience) : ℚ :=
  nstepBackup cfg.gamma (exps.dropLast.map Experience.reward) (chainSeed cfg exps)

/-- Line 171 of the source: the regression-target row for one chain is the
online net's output on the chain's first state with the entry at the first
transition's action overwritten by the backed-up total. -/
def targetRow (cfg : Config) (exps : List Experience) : List ℚ :=
  (cfg.model (exps.headD dExp).state).set (exps.headD dExp).action (chainTarget cfg exps)

/-- The module-level running sums mutated by `batch_to_train` via the `global`
statement on line 146: `batches_count`, `batches_sum_q0`,
`batches_sum_total_reward` (lines 120-122, reset each outer iteration). -/
structure Globals where
  batchesCount : Nat
  batchesSumQ0 : ℚ
  batchesSumTotalReward : ℚ
deriving DecidableEq

/-- Line 148 of the source: `q0.mean()` over the un-mutated online predictions
for the batch's first states (mean over every entry of the matrix).  `ℚ`
division totalizes the empty case with 0; every real batch is non-empty. -/
def q0Mean (cfg : Config) (batch : List (List Experience)) : ℚ :=
  let rows := batch.map (fun exps => cfg.model (exps.headD dExp).state)
  let total := rows.foldl (fun acc row => acc + row.foldl (· + ·) 0) 0
  let cnt := rows.foldl (fun (acc : Nat) row => acc + row.length) 0
  total / (cnt : ℚ)

/-- Lines 172-173 of the source: the per-batch mean of the backed-up totals,
`sum_total_reward / len(batch)`. -/
def avgTotal (cfg : Config) (batch : List (List Experience)) : ℚ :=
  (batch.map (chainTarget cfg)).foldl (· + ·) 0 / (batch.length : ℚ)

/-- Shallow embedding of `batch_to_train` (lines 124-174): takes the run
configuration, the current module-level running sums and the sampled batch of
experience chains; returns the updated running sums together with the value
`(states_t, q0)` the Python function returns — the list of first states and
the per-chain regression-target rows. -/
def batchToTrain (cfg : Config) (g : Globals) (batch : List (List Experience)) :
    Globals × List Nat × List (List ℚ) :=
  let states := batch.map (fun exps => (exps.headD dExp).state)
  let rows := batch.map (targetRow cfg)
  let g' : Globals :=
    { batchesCount := g.batchesCount + 1
      batchesSumQ0 := g.batchesSumQ0 + q0Mean cfg batch
      batchesSumTotalReward := g.batchesSumTotalReward + avgTotal cfg batch }
  (g', states, rows)

/-- The error kinds surfacing in the embedded fragments: Python's
`ZeroDivisionError` (raised by `x / 0` on numbers) and the spec's
`InsufficientDataError`. -/
inductive PyError where
  | zeroDivision : PyError
  | insufficientData : PyError
deriving DecidableEq

/-- Python numeric division: raises `ZeroDivisionError` on a zero denominator,
otherwise returns the quotient. -/
def pyDiv (a b : ℚ) : Except PyError ℚ :=
  if b = 0 then .error .zeroDivision else .ok (a / b)

/-- Lines 202-205 of the source, with an `epsilon_minimum` floor configured:
`epsilon ← max(floor, epsilon · decay_rate)`. -/
def decayEpsilon (decayRate floorEps eps : ℚ) : ℚ :=
  max floorEps (eps * decayRate)

/-- Epsilon after `k` decay calls starting from `eps0`. -/
def epsAfter (decayRate floorEps eps0 : ℚ) : Nat → ℚ
  | 0 => eps0
  | k + 1 => decayEpsilon decayRate floorEps (epsAfter decayRate floorEps eps0 k)

/-- The two parameter sets of identical architecture: the online net and the
target net, each abstracted to its flat parameter vector. -/
structure NetState where
  online : List ℚ
  target : List ℚ
deriving DecidableEq

/-- Lines 250-251 of the source: `if idx % copy_target_net_every_epoch == 0:
target_net.sync()` — on due iterations the target parameters are replaced
wholesale by a copy of the online parameters. -/
def targetSyncStep (cadence idx : Nat) (s : NetState) : NetState :=
  if idx % cadence == 0 then { s with target := s.online } else s

/-- The mutable state the embedded outer-iteration body touches: the
module-level running sums, the action selector's epsilon and the two
parameter sets. -/
structure TrainState where
  globals : Globals
  epsilon : ℚ
  nets : NetState
deriving DecidableEq

/-- One outer iteration of the `__main__` training loop (lines 180-252),
restricted to the state the claims are about.  In source order: the batch
loop threads the running sums through `batch_to_train`; epsilon decays once
(lines 202-205); the logging step divides both running sums by
`batches_count` (lines 217-218, Python raises `ZeroDivisionError` when the
count is 0) and resets them (lines 219-220); the target net syncs when the
iteration index is a multiple of the configured cadence (lines 250-251).
The sampled batches for the iteration are passed in as data. -/
def runningSums (cfg : Config) (batches : List (List (List Experience)))
    (g : Globals) : Globals :=
  batches.foldl (fun acc b => (batchToTrain cfg acc b).1) g

/-- See `runningSums` for the batch loop; the per-iteration state transition
follows source order (batch loop, epsilon decay, logging divisions, reset,
target sync). -/

def outerIteration (cfg : Config) (decayRate floorEps : ℚ) (cadence idx : Nat)
    (batches : List (List (List Experience))) (st : TrainState) :
    Except PyError TrainState :=
  match pyDiv (runningSums cfg batches st.globals).batchesSumQ0
          ((runningSums cfg batches st.globals).batchesCount : ℚ),
        pyDiv (runningSums cfg batches st.globals).batchesSumTotalReward
          ((runningSums cfg batches st.globals).batchesCount : ℚ) with
  | .error e, _ => .error e
  | .ok _, .error e => .error e
  | .ok _, .ok _ =>
      .ok { globals := ⟨0, 0, 0⟩
            epsilon := decayEpsilon decayRate floorEps st.epsilon
            nets := targetSyncStep cadence idx st.nets }

/-- The three ways control can leave the training loop body (lines 180-252):
running through the iteration cap, the early `break` on reaching the
mean-reward stop bound (line 240), or an exception propagating out. -/
inductive LoopOutcome where
  | completedCap : LoopOutcome
  | earlyStop : LoopOutcome
  | raised : PyError → LoopOutcome
deriving DecidableEq

/-- The `finally` block of lines 253-255: `for env in env_pool: env.close()`.
An environment is abstracted to its closed flag. -/
def closeAll (pool : List Bool) : List Bool :=
  pool.map (fun _ => true)

/-- The `try/finally` of lines 179-255: run the loop body (which may step the
pool but never closes it) to whatever outcome it reaches, then close every
environment of the pool before handing the outcome on. -/
def runMainWithCleanup (body : List Bool → LoopOutcome × List Bool)
    (pool : List Bool) : LoopOutcome × List Bool :=
  let r := body pool
  (r.1, closeAll r.2)

/-- Modelled from the spec: `experience.ExperienceReplayBuffer` is imported by
`src/ptan/samples/dqn_tweaks_atari.py` (lines 109, 183, 186) but its source is
not under `src/`.  Per §4.2 of the spec it is a bounded store of experience
chains with a configured `min_required` fill level that sampling checks. -/
structure ReplayStore where
  chains : List (List Experience)
  minRequired : Nat

/-- Modelled from the spec: `populate(k)` inserts freshly emitted chains,
"evicting oldest entries as capacity requires" (ring-buffer semantics, §4.2 /
§3 ReplayStore). -/
def populate (store : ReplayStore) (capacity : Nat)
    (newChains : List (List Experience)) : ReplayStore :=
  { store with
    chains := (store.chains ++ newChains).drop
      (store.chains.length + newChains.length - capacity) }

/-- Modelled from the spec: `sample_batches(batch_size)` fails with
`InsufficientDataError` when the store holds fewer than `min_required` chains,
and otherwise yields `floor(store_size / batch_size)` batches, each a
uniform-with-replacement draw of exactly `batch_size` chains; the random
source is passed in as an index stream. -/
def sampleBatches (store : ReplayStore) (rand : Nat → Nat) (batchSize : Nat) :
    Except PyError (List (List (List Experience))) :=
  if store.chains.length < store.minRequired then
    .error .insufficientData
  else
    .ok ((List.range (store.chains.length / batchSize)).map fun bi =>
      (List.range batchSize).map fun j =>
        store.chains.getD (rand (bi * batchSize + j) % store.chains.length) [])

/-! ### Helper lemmas -/

theorem getD_map_lt {α β : Type} (f : α → β) (dA : α) (dB : β) (l : List α) :
    ∀ i, i < l.length → (l.map f).getD i dB = f (l.getD i dA) := by
  induction l with
  | nil => intro i h; exact absurd h (Nat.not_lt_zero i)
  | cons a t ih =>
    intro i h
    cases i with
    | zero => rfl
    | succ j => exact ih j (Nat.lt_of_succ_lt_succ h)

theorem getD_set_self (v : ℚ) : ∀ (l : List ℚ) (i : Nat), i < l.length →
    (l.set i v).getD i 0 = v := by
  intro l
  induction l with
  | nil => intro i h; exact absurd h (Nat.not_lt_zero i)
  | cons a t ih =>
    intro i h
    cases i with
    | zero => rfl
    | succ j => exact ih j (Nat.lt_of_succ_lt_succ h)

theorem getD_set_ne (v : ℚ) : ∀ (l : List ℚ) (i j : Nat), j ≠ i →
    (l.set i v).getD j 0 = l.getD j 0 := by
  intro l
  induction l with
  | nil => intro i j _; rfl
  | cons a t ih =>
    intro i j h
    cases i with
    | zero =>
      cases j with
      | zero => exact absurd rfl h
      | succ k => rfl
    | succ i2 =>
      cases j with
      | zero => rfl
      | succ k => exact ih i2 k (fun he => h (by rw [he]))

theorem rows_getD (cfg : Config) (g : Globals) (batch : List (List Experience))
    (i : Nat) (hi : i < batch.length) :
    (batchToTrain cfg g batch).2.2.getD i [] = targetRow cfg (batch.getD i []) := by
  show (batch.map (targetRow cfg)).getD i [] = _
  exact getD_map_lt (targetRow cfg) [] [] batch i hi

theorem outerIteration_ok (cfg : Config) (decayRate floorEps : ℚ) (cadence idx : Nat)
    (batches : List (List (List Experience))) (st st' : TrainState)
    (h : outerIteration cfg decayRate floorEps cadence idx batches st = .ok st') :
    st' = { globals := ⟨0, 0, 0⟩
            epsilon := decayEpsilon decayRate floorEps st.epsilon
            nets := targetSyncStep cadence idx st.nets } := by
  unfold outerIteration at h
  split at h
  · exact absurd h (by simp)
  · exact absurd h (by simp)
  · exact (Except.ok.inj h).symm

theorem epsAfter_closed (decayRate floorEps eps0 : ℚ) (hd0 : 0 ≤ decayRate)
    (hd1 : decayRate ≤ 1) (hf : 0 ≤ floorEps) (hfe : floorEps ≤ eps0) :
    ∀ k, epsAfter decayRate floorEps eps0 k = max floorEps (eps0 * decayRate ^ k) := by
  intro k
  induction k with
  | zero => simp [epsAfter, max_eq_right hfe]
  | succ n ih =>
    rw [epsAfter, ih, decayEpsilon, max_mul_of_nonneg _ _ hd0, ← max_assoc]
    have h1 : floorEps * decayRate ≤ floorEps := mul_le_of_le_one_right hf hd1
    rw [max_eq_left h1, pow_succ, mul_assoc]

/-! ### Concrete instances used by counterexamples and witnesses -/

/-- A one-action run with constant online prediction 10, no target net, no
double mode. -/
def cfgCx : Config := ⟨99/100, false, false, fun _ => [10], fun _ => [10]⟩

/-- A length-1 chain whose single transition is terminal with reward 5. -/
def chainCx : List Experience := [⟨0, 0, 5, true⟩]

/-- A two-action run with γ = 0.9 and constant online prediction [3, 7]. -/
def cfgC1w : Config := ⟨9/10, false, false, fun _ => [3, 7], fun _ => [0, 0]⟩

/-- A non-terminal chain of three transitions with rewards 1, 2, 3. -/
def chainC1w : List Experience :=
  [⟨0, 0, 1, false⟩, ⟨1, 1, 2, false⟩, ⟨2, 0, 3, false⟩]

/-- A double-mode run where online prediction [0, 1] has argmax action 1 and
the target net predicts [5, 3]. -/
def cfgC2 : Config := ⟨99/100, true, true, fun _ => [0, 1], fun _ => [5, 3]⟩

/-- A training-loop state whose running sums are freshly reset. -/
def st0 : TrainState := ⟨⟨0, 0, 0⟩, 1, ⟨[0], [0]⟩⟩

/-- The rational 1/2, given in lowest terms so that the kernel can evaluate
comparisons on it directly. -/
def half : ℚ := ⟨1, 2, by decide, by decide⟩

/-- The rational 1/10, given in lowest terms so that the kernel can evaluate
comparisons on it directly. -/
def tenth : ℚ := ⟨1, 10, by decide, by decide⟩

/-! ### Claims -/

/-- Claim C1, counterexample: for the length-1 chain with `done = true` and
reward 5, the claim says the regression target at the taken action equals
exactly 5; `batch_to_train` writes 0 there, because the backward walk ranges
over `exps[:-1]` and therefore never adds the last transition's reward. -/
theorem C1_counterexample :
    (batchToTrain cfgCx ⟨0, 0, 0⟩ [chainCx]).2.2 = [[(0 : ℚ)]]
    ∧ (batchToTrain cfgCx ⟨0, 0, 0⟩ [chainCx]).2.2 ≠ [[(5 : ℚ)]] := by decide

/-- Claim C1, amended: for every sampled chain, the regression target written
at the taken action equals the discounted backup over the rewards of all
transitions except the last one, seeded with the bootstrap value (forced to 0
when the last transition has `done = true`); the last transition contributes
only its state (the bootstrap input) and done flag.  In particular a length-1
chain contributes no reward at all and its target equals the seed. -/
theorem C1_target_backup (cfg : Config) (g : Globals) (batch : List (List Experience))
    (i : Nat) (hi : i < batch.length)
    (ha : ((batch.getD i []).headD dExp).action
            < (cfg.model ((batch.getD i []).headD dExp).state).length) :
    ((batchToTrain cfg g batch).2.2.getD i []).getD
        ((batch.getD i []).headD dExp).action 0
      = nstepBackup cfg.gamma ((batch.getD i []).dropLast.map Experience.reward)
          (chainSeed cfg (batch.getD i [])) := by
  rw [rows_getD cfg g batch i hi]
  unfold targetRow
  rw [getD_set_self _ _ _ ha]
  rfl

theorem C1_target_backup_witness :
    ((batchToTrain cfgC1w ⟨0, 0, 0⟩ [chainC1w]).2.2.getD 0 []).getD
        (([chainC1w].getD 0 []).headD dExp).action 0
      = nstepBackup cfgC1w.gamma (([chainC1w].getD 0 []).dropLast.map Experience.reward)
          (chainSeed cfgC1w ([chainC1w].getD 0 [])) :=
  C1_target_backup cfgC1w ⟨0, 0, 0⟩ [chainC1w] 0 (by decide) (by decide)

/-- Claim C2: in double-estimator mode (both `use_target_dqn` and
`use_double_dqn` set), the bootstrap value of every bootstrap state equals
the target estimator's output at the argmax index of the online estimator's
output on that state; and it is not the online estimator's own max (the
concrete conjunct exhibits a run where the two differ). -/
theorem C2_double_bootstrap (cfg : Config) (s : Nat)
    (ht : cfg.useTargetDqn = true) (hd : cfg.useDoubleDqn = true) :
    bootstrapValue cfg s = (cfg.targetModel s).getD (argmaxIdx (cfg.model s)) 0
    ∧ bootstrapValue cfgC2 0 ≠ listMax (cfgC2.model 0) := by
  constructor
  · simp [bootstrapValue, targetModelOf, ht, hd]
  · decide

theorem C2_double_bootstrap_witness :
    bootstrapValue cfgC2 0 = (cfgC2.targetModel 0).getD (argmaxIdx (cfgC2.model 0)) 0
    ∧ bootstrapValue cfgC2 0 ≠ listMax (cfgC2.model 0) :=
  C2_double_bootstrap cfgC2 0 rfl rfl

/-- Claim C3 (spec-modelled, the replay buffer's source is not under `src/`):
if `populate` leaves the store with fewer than `min_required` chains, any
sampling attempt fails with `InsufficientDataError`; and whenever sampling
succeeds it yields exactly `floor(size / batch_size)` batches, each of exactly
`batch_size` chains — never fewer or smaller. -/
theorem C3_insufficient_data (store : ReplayStore) (capacity : Nat)
    (newChains : List (List Experience)) (rand : Nat → Nat) (batchSize : Nat) :
    ((populate store capacity newChains).chains.length
        < (populate store capacity newChains).minRequired →
      sampleBatches (populate store capacity newChains) rand batchSize
        = .error .insufficientData)
    ∧ ∀ bs, sampleBatches (populate store capacity newChains) rand batchSize = .ok bs →
        bs.length = (populate store capacity newChains).chains.length / batchSize
        ∧ ∀ b ∈ bs, b.length = batchSize := by
  constructor
  · intro h; simp [sampleBatches, h]
  · intro bs h
    unfold sampleBatches at h
    split at h
    · exact absurd h (by simp)
    · constructor
      · rw [← Except.ok.inj h]; simp
      · intro b hb
        rw [← Except.ok.inj h] at hb
        simp at hb
        obtain ⟨bi, _, hbeq⟩ := hb
        rw [← hbeq]; simp

theorem C3_insufficient_data_witness :
    sampleBatches (populate ⟨[], 2⟩ 10 [[dExp]]) (fun _ => 0) 4
      = .error .insufficientData :=
  (C3_insufficient_data ⟨[], 2⟩ 10 [[dExp]] (fun _ => 0) 4).1 (by decide)

/-- Claim C4: the target net's parameters are replaced by a copy of the online
net's parameters exactly when the outer-iteration index is a multiple of the
configured cadence; iteration index 0 triggers a sync; and the embedded outer
iteration applies exactly this sync step to the parameter pair. -/
theorem C4_target_sync_cadence (cadence idx : Nat) (s : NetState) :
    (idx % cadence = 0 → targetSyncStep cadence idx s = ⟨s.online, s.online⟩)
    ∧ (idx % cadence ≠ 0 → targetSyncStep cadence idx s = s)
    ∧ (targetSyncStep cadence 0 s).target = s.online
    ∧ ∀ (cfg : Config) (decayRate floorEps : ℚ)
        (batches : List (List (List Experience))) (st st' : TrainState),
        outerIteration cfg decayRate floorEps cadence idx batches st = .ok st' →
        st'.nets = targetSyncStep cadence idx st.nets := by
  refine ⟨?_, ?_, ?_, ?_⟩
  · intro h; simp [targetSyncStep, h]
  · intro h; simp [targetSyncStep, h]
  · simp [targetSyncStep, Nat.zero_mod]
  · intro cfg decayRate floorEps batches st st' h
    rw [outerIteration_ok cfg decayRate floorEps cadence idx batches st st' h]

theorem C4_target_sync_cadence_witness :
    targetSyncStep 3 6 ⟨[1], [2]⟩ = ⟨[1], [1]⟩
    ∧ targetSyncStep 3 5 ⟨[1], [2]⟩ = ⟨[1], [2]⟩ :=
  ⟨(C4_target_sync_cadence 3 6 ⟨[1], [2]⟩).1 (by decide),
   (C4_target_sync_cadence 3 5 ⟨[1], [2]⟩).2.1 (by decide)⟩

/-- Claim C5: with a floor configured, epsilon after `k` decay calls from
`eps0` at rate `d ∈ [0, 1]` equals `max floor (eps0 · d^k)`; the sequence is
monotonically non-increasing; and each embedded outer iteration applies the
decay to epsilon exactly once, whatever the number of batches processed
inside the batch loop. -/
theorem C5_epsilon_decay (decayRate floorEps eps0 : ℚ) (k : Nat)
    (hd0 : 0 ≤ decayRate) (hd1 : decayRate ≤ 1)
    (hf : 0 ≤ floorEps) (hfe : floorEps ≤ eps0) :
    epsAfter decayRate floorEps eps0 k = max floorEps (eps0 * decayRate ^ k)
    ∧ epsAfter decayRate floorEps eps0 (k + 1) ≤ epsAfter decayRate floorEps eps0 k
    ∧ ∀ (cfg : Config) (cadence idx : Nat)
        (batches : List (List (List Experience))) (st st' : TrainState),
        outerIteration cfg decayRate floorEps cadence idx batches st = .ok st' →
        st'.epsilon = decayEpsilon decayRate floorEps st.epsilon := by
  refine ⟨epsAfter_closed _ _ _ hd0 hd1 hf hfe k, ?_, ?_⟩
  · rw [epsAfter_closed _ _ _ hd0 hd1 hf hfe k,
        epsAfter_closed _ _ _ hd0 hd1 hf hfe (k + 1)]
    apply max_le_max le_rfl
    rw [pow_succ, ← mul_assoc]
    have hnn : 0 ≤ eps0 * decayRate ^ k :=
      mul_nonneg (le_trans hf hfe) (pow_nonneg hd0 k)
    calc eps0 * decayRate ^ k * decayRate
        ≤ eps0 * decayRate ^ k * 1 := mul_le_mul_of_nonneg_left hd1 hnn
      _ = eps0 * decayRate ^ k := mul_one _
  · intro cfg cadence idx batches st st' h
    rw [outerIteration_ok cfg decayRate floorEps cadence idx batches st st' h]

theorem C5_epsilon_decay_witness :
    epsAfter half tenth 1 2 = max tenth (1 * half ^ 2)
    ∧ epsAfter half tenth 1 (2 + 1) ≤ epsAfter half tenth 1 2
    ∧ ∀ (cfg : Config) (cadence idx : Nat)
        (batches : List (List (List Experience))) (st st' : TrainState),
        outerIteration cfg half tenth cadence idx batches st = .ok st' →
        st'.epsilon = decayEpsilon half tenth st.epsilon :=
  C5_epsilon_decay half tenth 1 2 (by decide) (by decide) (by decide) (by decide)

/-- Claim C6, counterexample: calling `batch_to_train` on a batch does change
state outside its locals — the module-level running sums are not left
unchanged (here `batches_count` goes from 0 to 1). -/
theorem C6_counterexample :
    (batchToTrain cfgCx ⟨0, 0, 0⟩ [chainCx]).1 ≠ (⟨0, 0, 0⟩ : Globals) := by decide

/-- Claim C6, amended: apart from invoking the estimators' forward evaluation,
`batch_to_train` mutates exactly the three module-level running sums declared
for it (`batches_count` is incremented, the mean of the un-mutated online
predictions and the per-batch mean backed-up total are added to the two sum
variables); its returned value does not depend on those sums. -/
theorem C6_globals_update (cfg : Config) (g gAlt : Globals)
    (batch : List (List Experience)) :
    (batchToTrain cfg g batch).1
      = ⟨g.batchesCount + 1, g.batchesSumQ0 + q0Mean cfg batch,
         g.batchesSumTotalReward + avgTotal cfg batch⟩
    ∧ (batchToTrain cfg g batch).2 = (batchToTrain cfg gAlt batch).2 := ⟨rfl, rfl⟩

/-- Claim C7: for every chain in the batch, the returned regression-target row
is the online estimator's output on the chain's first state with only the
entry at the first transition's action overwritten by the backed-up total;
every other entry is the estimator's own prediction. -/
theorem C7_row_frame (cfg : Config) (g : Globals) (batch : List (List Experience))
    (i j : Nat) (hi : i < batch.length) :
    (j ≠ ((batch.getD i []).headD dExp).action →
      ((batchToTrain cfg g batch).2.2.getD i []).getD j 0
        = (cfg.model ((batch.getD i []).headD dExp).state).getD j 0)
    ∧ (((batch.getD i []).headD dExp).action
          < (cfg.model ((batch.getD i []).headD dExp).state).length →
      ((batchToTrain cfg g batch).2.2.getD i []).getD
          ((batch.getD i []).headD dExp).action 0
        = chainTarget cfg (batch.getD i [])) := by
  rw [rows_getD cfg g batch i hi]
  unfold targetRow
  constructor
  · intro hj; exact getD_set_ne _ _ _ _ hj
  · intro ha; exact getD_set_self _ _ _ ha

theorem C7_row_frame_witness :
    ((batchToTrain cfgC1w ⟨0, 0, 0⟩ [chainC1w]).2.2.getD 0 []).getD 1 0
        = (cfgC1w.model (([chainC1w].getD 0 []).headD dExp).state).getD 1 0
    ∧ ((batchToTrain cfgC1w ⟨0, 0, 0⟩ [chainC1w]).2.2.getD 0 []).getD
          (([chainC1w].getD 0 []).headD dExp).action 0
        = chainTarget cfgC1w ([chainC1w].getD 0 []) :=
  ⟨(C7_row_frame cfgC1w ⟨0, 0, 0⟩ [chainC1w] 0 1 (by decide)).1 (by decide),
   (C7_row_frame cfgC1w ⟨0, 0, 0⟩ [chainC1w] 0 0 (by decide)).2 (by decide)⟩

/-- Claim C8: whatever outcome the training-loop body reaches — completing the
iteration cap, breaking early on the mean-reward stop bound, or an exception
propagating out — the `finally` block closes every environment of the pool
(and the outcome itself is handed on unchanged, with the pool's size
preserved). -/
theorem C8_env_cleanup (body : List Bool → LoopOutcome × List Bool)
    (pool : List Bool) :
    (runMainWithCleanup body pool).1 = (body pool).1
    ∧ ((runMainWithCleanup body pool).2).length = ((body pool).2).length
    ∧ ((runMainWithCleanup body pool).2).all (fun c => c) = true := by
  refine ⟨rfl, by simp [runMainWithCleanup, closeAll], ?_⟩
  simp [runMainWithCleanup, closeAll, List.all_eq_true]

/-- Claim C9: with `use_double_dqn` set but `use_target_dqn` unset,
`batch_to_train` behaves exactly as with both flags unset — the branch
guard requires both flags, so the plain bootstrap (the online estimator's own
max on the bootstrap state) is silently used. -/
theorem C9_double_without_target (gamma : ℚ) (m t : Nat → List ℚ) (g : Globals)
    (batch : List (List Experience)) :
    batchToTrain ⟨gamma, false, true, m, t⟩ g batch
      = batchToTrain ⟨gamma, false, false, m, t⟩ g batch
    ∧ ∀ s, bootstrapValue ⟨gamma, false, true, m, t⟩ s = listMax (m s) :=
  ⟨rfl, fun _ => rfl⟩

/-- Claim C10: when an outer iteration processes zero batches (the batch loop
body never runs, so the running sums stay at their reset values and
`batches_count` is 0), the logging step's division by `batches_count` raises
Python's `ZeroDivisionError` and the iteration fails instead of completing. -/
theorem C10_zero_batches_division (cfg : Config) (decayRate floorEps : ℚ)
    (cadence idx : Nat) (st : TrainState) (h : st.globals.batchesCount = 0) :
    outerIteration cfg decayRate floorEps cadence idx [] st = .error .zeroDivision := by
  unfold outerIteration runningSums
  simp [pyDiv, h]

theorem C10_zero_batches_division_witness :
    outerIteration cfgCx half tenth 3 0 [] st0 = .error .zeroDivision :=
  C10_zero_batches_division cfgCx half tenth 3 0 st0 (by decide)

end DQN
